import Mathlib

/-!
Verification development for the kidskermese event-registration backend
(`src/server.js`, with the registrations schema of `supabase-schema.sql`).

The four HTTP handlers of `server.js` are embedded as pure Lean functions
over an explicit record store (a list of rows of the `registrations`
table).  External collaborators — the Stripe payment gateway, the Resend
notifier, the uuid generator and the clock — are supplied through an
`Env` record of oracle functions, mirroring the process-global clients of
the source.  Each handler returns its HTTP response together with the
store after the call; `confirm_payment` additionally reports how many
store-mutating calls and notification dispatches it performed, so that
idempotency and frame properties can be stated directly.
-/

/-- One row of the `registrations` table (`supabase-schema.sql`):
`id`, `name`, `student_name`, `email` are text columns, `payment_status`
is the text column written by `server.js`, `checked_in` defaults to
`FALSE`, `checked_in_at` is a nullable timestamp, `created_at` defaults
to `NOW()`.  Timestamps are modelled as naturals. -/
structure Registration where
  id : String
  name : String
  student_name : String
  email : String
  payment_status : String
  checked_in : Bool
  checked_in_at : Option Nat
  created_at : Nat
deriving DecidableEq, Repr

/-- The record store: the rows of the `registrations` table. -/
abbrev Store := List Registration

/-- A Stripe checkout session as seen at retrieval time
(`stripe.checkout.sessions.retrieve`): its `payment_status` and the
metadata fields that `create-checkout` embedded into it. -/
structure StripeSession where
  payment_status : String
  registrationId : String
  name : String
  student_name : String
  email : String
deriving DecidableEq, Repr

/-- The request `create-checkout` passes to
`stripe.checkout.sessions.create`: the customer email, the priced line
item and the session metadata (`{ registrationId, name, student_name:
tierLabel, email, tier }` in the source). -/
structure SessionRequest where
  customer_email : String
  currency : String
  unit_amount : Nat
  product_name : String
  registrationId : String
  name : String
  student_name : String
  email : String
  tier : String
deriving DecidableEq, Repr

/-- The process environment and external collaborators of `server.js`:
the shared admin credential (`process.env.ADMIN_PASSWORD`), the clock
(`new Date()`), the uuid generator (`uuidv4()`), the two Stripe calls,
and the outcome the Resend notifier will report for a send
(`none` = delivered, `some e` = the `{ error }` value Resend resolves
with on failure). -/
structure Env where
  adminPassword : String
  now : Nat
  freshId : String
  retrieveSession : String → Option StripeSession
  createSession : SessionRequest → Option String
  notifierOutcome : Option String

/-- The tier table of `server.js` (`TIERS`), the server-held source of
truth for pricing. -/
structure Tier where
  label : String
  price : Nat
deriving DecidableEq, Repr

/-- `TIERS` from `server.js` lines 27–31. -/
def TIERS : String → Option Tier
  | "early" => some ⟨"Early Bird", 65000⟩
  | "general" => some ⟨"General", 95000⟩
  | "vip" => some ⟨"VIP", 180000⟩
  | _ => none

/-- `Math.round(tierData.price * 1.06)` from `server.js` line 51, the 6%
service fee on top of the base price.  Modelled as the exact half-up
rounding of `price * 106 / 100` over the integers: for every price in
`TIERS` the double-precision product `price * 1.06` differs from the
exact rational by less than half an ulp and `Math.round` returns exactly
this value. -/
def chargedAmount (price : Nat) : Nat := (price * 106 + 50) / 100

/-- Lookup of a registration row by id, the `.select().eq(id).single()` pattern of the source (`id` is the primary key). -/
def findById (id : String) (store : Store) : Option Registration :=
  store.find? (fun r => r.id = id)

/-- Result of `POST /create-checkout` (`server.js` lines 34–80). -/
inductive CheckoutResult where
  /-- 400 — missing field or unknown tier (`ValidationError`). -/
  | validationError (msg : String)
  /-- 200 — `{ url }` of the created Stripe session. -/
  | ok (url : String)
  /-- 500 — the Stripe call failed (`Error al crear el pago.`). -/
  | gatewayError
deriving DecidableEq, Repr

/-- The session request `create-checkout` builds (`server.js` lines
54–72): note the source puts the tier label, not the student name of the registrant, into the `student_name` metadata field. -/
def checkoutSessionRequest (freshId name email tier : String) (tierData : Tier) :
    SessionRequest :=
  { customer_email := email
    currency := "mxn"
    unit_amount := chargedAmount tierData.price
    product_name := "Aniversario Caballeros — " ++ tierData.label
    registrationId := freshId
    name := name
    student_name := "Aniversario Caballeros — " ++ tierData.label
    email := email
    tier := tier }

/-- `POST /create-checkout` (`server.js` lines 34–80): validate the
fields, resolve the tier against the server-held table, create the
Stripe session, and return its url.  The record store is never
touched. -/
def create_checkout (env : Env) (name email tier : String) (store : Store) :
    CheckoutResult × Store :=
  if name = "" ∨ email = "" ∨ tier = "" then
    (CheckoutResult.validationError "Todos los campos son requeridos.", store)
  else
    match TIERS tier with
    | none => (CheckoutResult.validationError "Tipo de acceso no válido.", store)
    | some tierData =>
      match env.createSession (checkoutSessionRequest env.freshId name email tier tierData) with
      | some url => (CheckoutResult.ok url, store)
      | none => (CheckoutResult.gatewayError, store)

/-- The JSON body `POST /confirm-payment` answers with. -/
structure ConfirmResponse where
  status : Nat
  success : Bool
  alreadyConfirmed : Bool
  name : Option String
  email : Option String
  error : Option String
deriving DecidableEq, Repr

/-- Outcome of one `confirm-payment` call: the response, the store after
the call, the number of store-mutating calls performed, and the number of
notification dispatches performed. -/
structure ConfirmOutcome where
  response : ConfirmResponse
  store : Store
  storeWrites : Nat
  notifications : Nat
deriving DecidableEq, Repr

/-- The store call `.update to payment_status paid of every row matching the id` from `server.js`
lines 109–112. -/
def setPaid (id : String) (store : Store) : Store :=
  store.map (fun r => if r.id = id then { r with payment_status := "paid" } else r)

/-- The store write of the first-confirmation path of `confirm-payment`
(`server.js` lines 107–118): update the pending row to `paid` when it
exists, otherwise insert a fresh `paid` row built from the session
metadata, with the schema defaults `checked_in = false`,
`checked_in_at = NULL`, `created_at = now`. -/
def confirmWrite (session : StripeSession) (now : Nat) (store : Store) : Store :=
  match findById session.registrationId store with
  | some _ => setPaid session.registrationId store
  | none => store ++ [⟨session.registrationId, session.name, session.student_name,
                       session.email, "paid", false, none, now⟩]

/-- `POST /confirm-payment` (`server.js` lines 83–141).  Retrieves the
session, rejects unless the session payment_status is the text paid, then looks the
record up by the id carried in the session metadata: already `paid` —
answer `alreadyConfirmed` with no write and no email; exists pending —
update to `paid`; absent — insert a fresh `paid` row (schema defaults:
`checked_in = false`, `checked_in_at = NULL`, `created_at = now`).  On
the two writing paths it then generates the QR code and awaits
`resend.emails.send`, whose resolved `{ error }` value the source never
reads, and answers success. -/
def confirm_payment (env : Env) (session_id : String) (store : Store) : ConfirmOutcome :=
  if session_id = "" then
    ⟨⟨400, false, false, none, none, some "Session ID requerido."⟩, store, 0, 0⟩
  else
    match env.retrieveSession session_id with
    | none =>
      ⟨⟨500, false, false, none, none, some "Error al confirmar el pago."⟩, store, 0, 0⟩
    | some session =>
      if session.payment_status ≠ "paid" then
        ⟨⟨400, false, false, none, none, some "Pago no completado."⟩, store, 0, 0⟩
      else
        let existing := findById session.registrationId store
        if existing.map (·.payment_status) = some "paid" then
          ⟨⟨200, true, true, some session.name, some session.email, none⟩, store, 0, 0⟩
        else
          let store' := confirmWrite session env.now store
          let _emailOutcome := env.notifierOutcome
          ⟨⟨200, true, false, some session.name, some session.email, none⟩, store', 1, 1⟩

/-- Result of `POST /verify` (`server.js` lines 223–262). -/
inductive VerifyResult where
  /-- 401 — `No autorizado.` -/
  | unauthorized
  /-- 400 — `ID requerido.` -/
  | badRequest
  /-- 404 — status not_found. -/
  | notFound
  /-- 200 — status already_checked_in with the row. -/
  | alreadyCheckedIn (registration : Registration)
  /-- 200 — status success with the row. -/
  | success (registration : Registration)
deriving DecidableEq, Repr

/-- The first store call of `/verify`:
`.select all columns .eq(id).single()`. -/
def verifyRead (id : String) (store : Store) : Option Registration :=
  findById id store

/-- The second store call of `/verify`:
`.update({ checked_in: true, checked_in_at: new Date().toISOString() })
.eq(id)` — an unconditional update of every row matching the
id. -/
def verifyWrite (id : String) (now : Nat) (store : Store) : Store :=
  store.map (fun r =>
    if r.id = id then { r with checked_in := true, checked_in_at := some now } else r)

/-- The part of `/verify` after the store lookup (`server.js` lines
239–261), branching on the row the lookup returned: not found — 404;
already checked in — answer `already_checked_in` with the row; otherwise
issue the check-in update and answer `success` with the row **as it was
read**. -/
def verifyStep2 (env : Env) (id : String) (data : Option Registration) (store : Store) :
    VerifyResult × Store :=
  match data with
  | none => (VerifyResult.notFound, store)
  | some data =>
    if data.checked_in then (VerifyResult.alreadyCheckedIn data, store)
    else (VerifyResult.success data, verifyWrite id env.now store)

/-- `POST /verify` (`server.js` lines 223–262): credential check first,
then the id presence check, then the read store call followed by the
branch-and-write step.  The read and the write are two separate store
calls in the source. -/
def verify_and_checkin (env : Env) (id password : String) (store : Store) :
    VerifyResult × Store :=
  if password ≠ env.adminPassword then (VerifyResult.unauthorized, store)
  else if id = "" then (VerifyResult.badRequest, store)
  else verifyStep2 env id (verifyRead id store) store

/-- Result of `GET /admin/registrations` (`server.js` lines 206–220). -/
inductive ListResult where
  /-- 401 — `No autorizado.` -/
  | unauthorized
  /-- 200 — all rows, newest first by `created_at`, marked
  `Cache-Control: no-store`. -/
  | ok (data : List Registration)
deriving DecidableEq, Repr

/-- Insert a row into a list already sorted by `created_at` descending
(used to model `.order created_at descending`). -/
def insertByCreatedDesc (r : Registration) : List Registration → List Registration
  | [] => [r]
  | a :: rest =>
    if a.created_at ≤ r.created_at then r :: a :: rest
    else a :: insertByCreatedDesc r rest

/-- Sort the rows by `created_at` descending, the
`.order created_at descending` of the source. -/
def orderByCreatedDesc (store : Store) : List Registration :=
  store.foldr insertByCreatedDesc []

/-- `GET /admin/registrations` (`server.js` lines 206–220): credential
check first, then a read of all rows ordered by `created_at`
descending.  Never mutates the store. -/
def list_registrations (env : Env) (password : String) (store : Store) :
    ListResult × Store :=
  if password ≠ env.adminPassword then (ListResult.unauthorized, store)
  else (ListResult.ok (orderByCreatedDesc store), store)

/-- Two concurrent authorized `/verify` requests for the same id, in the
interleaving where both perform their store read (the `.select()` call)
before either performs its store write (the `.update()` call): request A
reads, request B reads, A branches and writes, then B branches and
writes.  Both store calls of each request are exactly the ones of
`verify_and_checkin`; only their order across the two requests
differs.  Returns both responses and the final store. -/
def verifyRaceReadsFirst (envA envB : Env) (id : String) (store : Store) :
    VerifyResult × VerifyResult × Store :=
  let dataA := verifyRead id store
  let dataB := verifyRead id store
  let stepA := verifyStep2 envA id dataA store
  let stepB := verifyStep2 envB id dataB stepA.2
  (stepA.1, stepB.1, stepB.2)

/-- The schema/spec invariant on one row: `checked_in = true` exactly
when `checked_in_at` is non-null. -/
def RecordInv (r : Registration) : Prop :=
  r.checked_in = true ↔ r.checked_in_at ≠ none

instance (r : Registration) : Decidable (RecordInv r) := by
  unfold RecordInv; infer_instance

/-- The invariant over the whole store. -/
def StoreInv (store : Store) : Prop := ∀ r ∈ store, RecordInv r

instance (store : Store) : Decidable (StoreInv store) := by
  unfold StoreInv; infer_instance

/-! Concrete fixtures used by the closed theorems and witnesses. -/

/-- A not-yet-checked-in paid row. -/
def sampleRec : Registration :=
  ⟨"abc-123", "Ana", "Aniversario Caballeros — General", "ana@example.com",
   "paid", false, none, 0⟩

/-- A paid Stripe session carrying the registrant metadata of `sampleRec` under the fresh id `reg-1`. -/
def paidSession : StripeSession :=
  ⟨"paid", "reg-1", "Ana", "Aniversario Caballeros — General", "ana@example.com"⟩

/-- An unpaid Stripe session. -/
def unpaidSession : StripeSession :=
  ⟨"unpaid", "reg-2", "Bo", "Aniversario Caballeros — VIP", "bo@example.com"⟩

/-- Base environment: admin password `pw`, clock at 10, Stripe resolves
`sess_1` to the paid session and `sess_2` to the unpaid one, the
notifier delivers. -/
def baseEnv : Env :=
  ⟨"pw", 10, "reg-1",
   fun sid => if sid = "sess_1" then some paidSession
              else if sid = "sess_2" then some unpaidSession else none,
   fun req => some ("https://checkout.stripe.com/" ++ req.registrationId),
   none⟩

/-- Environment whose notifier reports a delivery failure. -/
def notifierFailEnv : Env := { baseEnv with notifierOutcome := some "delivery failed" }

/-- Environment of the second racer: same credential, clock at 20. -/
def raceEnvB : Env := { baseEnv with now := 20 }

/-! Helper lemmas about the store primitives. -/

/-- A by-id lookup after a by-id update of every matching row returns
the updated row, whenever the update preserves the id. -/
theorem findById_map_update (f : Registration → Registration) (hf : ∀ r, (f r).id = r.id)
    (id : String) (store : Store) :
    findById id (store.map (fun r => if r.id = id then f r else r))
      = (findById id store).map f := by
  induction store with
  | nil => rfl
  | cons a rest ih =>
    by_cases h : a.id = id
    · simp [findById, List.find?_cons, h, hf]
    · simpa [findById, List.find?_cons, h, hf] using ih

/-- A by-id lookup after appending a row with that id to a store that
had none returns the appended row. -/
theorem findById_append_single (id : String) (store : Store) (r : Registration)
    (hnone : findById id store = none) (hid : r.id = id) :
    findById id (store ++ [r]) = some r := by
  unfold findById at *
  rw [List.find?_append, hnone]
  simp [List.find?_cons, hid]

/-! Characterizations of the `confirm-payment` branches. -/

/-- On a paid session whose record is not yet `paid` (absent or
pending), `confirm-payment` answers success, performs the single write
`confirmWrite` and dispatches one notification. -/
theorem confirm_payment_first_confirmation (env : Env) (sid : String) (s : StripeSession)
    (store : Store)
    (hsid : sid ≠ "") (hs : env.retrieveSession sid = some s)
    (hpaid : s.payment_status = "paid")
    (hnew : (findById s.registrationId store).map (·.payment_status) ≠ some "paid") :
    confirm_payment env sid store
      = ⟨⟨200, true, false, some s.name, some s.email, none⟩,
         confirmWrite s env.now store, 1, 1⟩ := by
  simp [confirm_payment, hsid, hs, hpaid, hnew]

/-- On a paid session whose record is already `paid`, `confirm-payment`
answers `alreadyConfirmed` with no write and no notification. -/
theorem confirm_payment_already_paid (env : Env) (sid : String) (s : StripeSession)
    (store : Store)
    (hsid : sid ≠ "") (hs : env.retrieveSession sid = some s)
    (hpaid : s.payment_status = "paid")
    (hold : (findById s.registrationId store).map (·.payment_status) = some "paid") :
    confirm_payment env sid store
      = ⟨⟨200, true, true, some s.name, some s.email, none⟩, store, 0, 0⟩ := by
  simp [confirm_payment, hsid, hs, hpaid, hold]

/-- After the first-confirmation write, the row under the session id is
`paid`. -/
theorem findById_confirmWrite (s : StripeSession) (now : Nat) (store : Store) :
    (findById s.registrationId (confirmWrite s now store)).map (·.payment_status)
      = some "paid" := by
  unfold confirmWrite
  rcases hex : findById s.registrationId store with _ | r
  · rw [findById_append_single _ _ _ hex rfl]
    rfl
  · have h := findById_map_update (fun r => { r with payment_status := "paid" })
      (fun _ => rfl) s.registrationId store
    rw [show setPaid s.registrationId store
        = store.map (fun r => if r.id = s.registrationId
            then { r with payment_status := "paid" } else r) from rfl] at *
    rw [h, hex]
    rfl

/-- C1: `confirm_payment` is idempotent in sequential execution — on a
paid session whose record is not yet confirmed, the first call performs
exactly one store write, after which the record is `paid`, and exactly
one notification dispatch; the second call returns success with
`already_confirmed = true`, performs no further store write, no further
notification, and leaves the store exactly as the first call left
it. -/
theorem confirm_payment_idempotent (env : Env) (sid : String) (s : StripeSession)
    (store : Store)
    (hsid : sid ≠ "") (hs : env.retrieveSession sid = some s)
    (hpaid : s.payment_status = "paid")
    (hnew : (findById s.registrationId store).map (·.payment_status) ≠ some "paid") :
    (confirm_payment env sid store).storeWrites = 1
    ∧ (confirm_payment env sid store).notifications = 1
    ∧ (findById s.registrationId (confirm_payment env sid store).store).map (·.payment_status)
        = some "paid"
    ∧ (confirm_payment env sid (confirm_payment env sid store).store).response.success = true
    ∧ (confirm_payment env sid (confirm_payment env sid store).store).response.alreadyConfirmed
        = true
    ∧ (confirm_payment env sid (confirm_payment env sid store).store).store
        = (confirm_payment env sid store).store
    ∧ (confirm_payment env sid (confirm_payment env sid store).store).storeWrites = 0
    ∧ (confirm_payment env sid (confirm_payment env sid store).store).notifications = 0 := by
  have h1 := confirm_payment_first_confirmation env sid s store hsid hs hpaid hnew
  have hf : (findById s.registrationId (confirm_payment env sid store).store).map
      (·.payment_status) = some "paid" := by
    rw [h1]
    exact findById_confirmWrite s env.now store
  have h2 := confirm_payment_already_paid env sid s (confirm_payment env sid store).store
    hsid hs hpaid hf
  exact ⟨by rw [h1], by rw [h1], hf, by rw [h2], by rw [h2], by rw [h2], by rw [h2], by rw [h2]⟩

/-- Witness for C1 at a concrete paid session and the empty store. -/
theorem confirm_payment_idempotent_witness :
    (confirm_payment baseEnv "sess_1" []).storeWrites = 1
    ∧ (confirm_payment baseEnv "sess_1"
        (confirm_payment baseEnv "sess_1" []).store).response.alreadyConfirmed = true :=
  ⟨(confirm_payment_idempotent baseEnv "sess_1" paidSession []
      (by decide) (by decide) rfl (by decide)).1,
   (confirm_payment_idempotent baseEnv "sess_1" paidSession []
      (by decide) (by decide) rfl (by decide)).2.2.2.2.1⟩

/-- C2 (code bug): two authorized `/verify` requests for the same
not-yet-checked-in id, interleaved so that both store reads precede both
store writes, each return status `success` — not one `success` and one
`already_checked_in` — and `checked_in_at` is written twice: after the
first write it is 10, after the second it is 20.  The read-check-write
of the source is a separate `.select()` followed by a separate
`.update()`, not an atomic conditional update. -/
theorem verify_race_two_success :
    (verifyRaceReadsFirst baseEnv raceEnvB "abc-123" [sampleRec]).1
        = VerifyResult.success sampleRec
    ∧ (verifyRaceReadsFirst baseEnv raceEnvB "abc-123" [sampleRec]).2.1
        = VerifyResult.success sampleRec
    ∧ (verifyRaceReadsFirst baseEnv raceEnvB "abc-123" [sampleRec]).2.2
        = [{ sampleRec with checked_in := true, checked_in_at := some 20 }]
    ∧ (verifyStep2 baseEnv "abc-123" (verifyRead "abc-123" [sampleRec]) [sampleRec]).2
        = [{ sampleRec with checked_in := true, checked_in_at := some 10 }] := by
  decide

/-- Helper: `create_checkout` returns the store unchanged on every
branch. -/
theorem create_checkout_store_eq (env : Env) (name email tier : String) (store : Store) :
    (create_checkout env name email tier store).2 = store := by
  unfold create_checkout
  split
  · rfl
  · split
    · rfl
    · split <;> rfl

/-- C3: for every valid registrant input — non-empty name and email, and
a tier key present in the server price table — `create_checkout`
performs no write to the record store, whether the Stripe call returns a
redirect url or fails. -/
theorem create_checkout_no_store_write (env : Env) (name email tier : String)
    (td : Tier) (store : Store)
    (_hname : name ≠ "") (_hemail : email ≠ "") (_htier : TIERS tier = some td) :
    (create_checkout env name email tier store).2 = store :=
  create_checkout_store_eq env name email tier store

/-- Witness for C3 at a concrete valid registrant. -/
theorem create_checkout_no_store_write_witness :
    (create_checkout baseEnv "Ana" "ana@example.com" "general" [sampleRec]).2 = [sampleRec] :=
  create_checkout_no_store_write baseEnv "Ana" "ana@example.com" "general"
    ⟨"General", 95000⟩ [sampleRec] (by decide) (by decide) rfl

/-- C4: on a session whose Stripe payment status is anything other than
`paid`, `confirm_payment` fails with the `PaymentNotCompleted` response
(400, `Pago no completado.`) and performs no store write and no
notification: the store is returned unchanged. -/
theorem confirm_payment_unpaid_no_write (env : Env) (sid : String) (s : StripeSession)
    (store : Store)
    (hsid : sid ≠ "") (hs : env.retrieveSession sid = some s)
    (hnp : s.payment_status ≠ "paid") :
    confirm_payment env sid store
      = ⟨⟨400, false, false, none, none, some "Pago no completado."⟩, store, 0, 0⟩ := by
  simp [confirm_payment, hsid, hs, hnp]

/-- Witness for C4 at a concrete unpaid session. -/
theorem confirm_payment_unpaid_no_write_witness :
    confirm_payment baseEnv "sess_2" [sampleRec]
      = ⟨⟨400, false, false, none, none, some "Pago no completado."⟩, [sampleRec], 0, 0⟩ :=
  confirm_payment_unpaid_no_write baseEnv "sess_2" unpaidSession [sampleRec]
    (by decide) (by decide) (by decide)

/-- Helper: with the correct credential and a non-empty id, `/verify`
reduces to its read step followed by its branch-and-write step. -/
theorem verify_auth_ok (env : Env) (id pwd : String) (store : Store)
    (hpwd : pwd = env.adminPassword) (hid : id ≠ "") :
    verify_and_checkin env id pwd store = verifyStep2 env id (verifyRead id store) store := by
  unfold verify_and_checkin
  rw [if_neg (by simp [hpwd]), if_neg hid]

/-- Helper: a by-id lookup after the check-in update returns the updated
row. -/
theorem findById_verifyWrite (id : String) (now : Nat) (store : Store) :
    findById id (verifyWrite id now store)
      = (findById id store).map
          (fun r => { r with checked_in := true, checked_in_at := some now }) :=
  findById_map_update
    (fun r => { r with checked_in := true, checked_in_at := some now })
    (fun _ => rfl) id store

/-- C5: sequential state machine of `verify_and_checkin` with a valid
credential — on an id with no matching record it fails with `NotFound`;
on a record with `checked_in = false` it returns status `success`,
performs the check-in update, and the row is then checked in with
`checked_in_at = now`; a subsequent call on the same id returns status
`already_checked_in` and leaves the store — in particular
`checked_in_at` — exactly as it was, so every later call behaves the
same; on an already checked-in record it returns `already_checked_in`
without mutating the store. -/
theorem verify_and_checkin_state_machine (env : Env) (id pwd : String) (store : Store)
    (hpwd : pwd = env.adminPassword) (hid : id ≠ "") :
    (findById id store = none →
      verify_and_checkin env id pwd store = (VerifyResult.notFound, store))
    ∧ (∀ r, findById id store = some r → r.checked_in = false →
        verify_and_checkin env id pwd store
          = (VerifyResult.success r, verifyWrite id env.now store)
        ∧ findById id (verify_and_checkin env id pwd store).2
            = some { r with checked_in := true, checked_in_at := some env.now }
        ∧ verify_and_checkin env id pwd (verify_and_checkin env id pwd store).2
            = (VerifyResult.alreadyCheckedIn
                 { r with checked_in := true, checked_in_at := some env.now },
               (verify_and_checkin env id pwd store).2))
    ∧ (∀ r, findById id store = some r → r.checked_in = true →
        verify_and_checkin env id pwd store = (VerifyResult.alreadyCheckedIn r, store)) := by
  refine ⟨?_, ?_, ?_⟩
  · intro hnone
    rw [verify_auth_ok env id pwd store hpwd hid]
    simp [verifyStep2, verifyRead, hnone]
  · intro r hr hci
    have hfirst : verify_and_checkin env id pwd store
        = (VerifyResult.success r, verifyWrite id env.now store) := by
      rw [verify_auth_ok env id pwd store hpwd hid]
      simp [verifyStep2, verifyRead, hr, hci]
    have hfind2 : findById id (verify_and_checkin env id pwd store).2
        = some { r with checked_in := true, checked_in_at := some env.now } := by
      rw [hfirst, findById_verifyWrite, hr]
      rfl
    refine ⟨hfirst, hfind2, ?_⟩
    rw [verify_auth_ok env id pwd _ hpwd hid]
    simp [verifyStep2, verifyRead, hfind2]
  · intro r hr hci
    rw [verify_auth_ok env id pwd store hpwd hid]
    simp [verifyStep2, verifyRead, hr, hci]

/-- Witness for C5: a fresh record is checked in with status
`success`. -/
theorem verify_and_checkin_state_machine_witness :
    verify_and_checkin baseEnv "abc-123" "pw" [sampleRec]
      = (VerifyResult.success sampleRec, verifyWrite "abc-123" baseEnv.now [sampleRec]) :=
  ((verify_and_checkin_state_machine baseEnv "abc-123" "pw" [sampleRec] rfl (by decide)).2.1
    sampleRec (by decide) rfl).1

/-- C6: for every configured tier, the amount `create-checkout` passes
to Stripe equals the server-held table price times the 6% surcharge
factor, rounded half-up to the smallest currency unit; in particular for
tier `general` with table price 95000 the charged amount is 100700 minor
units. -/
theorem charged_amount_matches_table_price (t : String) (td : Tier) (h : TIERS t = some td)
    (fid name email : String) :
    ((checkoutSessionRequest fid name email t td).unit_amount : ℤ)
      = round ((td.price : ℚ) * (106 / 100))
    ∧ (checkoutSessionRequest fid name email "general" ⟨"General", 95000⟩).unit_amount
      = 100700 := by
  refine ⟨?_, show chargedAmount 95000 = 100700 by norm_num [chargedAmount]⟩
  have hp : td.price = 65000 ∨ td.price = 95000 ∨ td.price = 180000 := by
    unfold TIERS at h
    split at h <;> cases h <;> simp
  rcases hp with h1 | h1 | h1 <;>
    simp only [checkoutSessionRequest, h1] <;>
    norm_num [chargedAmount, round_eq]

/-- Witness for C6 at tier `general`. -/
theorem charged_amount_matches_table_price_witness :
    ((checkoutSessionRequest "reg-1" "Ana" "ana@example.com" "general"
        ⟨"General", 95000⟩).unit_amount : ℤ)
      = round (((⟨"General", 95000⟩ : Tier).price : ℚ) * (106 / 100)) :=
  (charged_amount_matches_table_price "general" ⟨"General", 95000⟩ rfl
    "reg-1" "Ana" "ana@example.com").1

/-- C7 (code bug): when the notifier reports a delivery failure after
`confirm-payment` has written the paid record, the paid state is not
rolled back — the record remains `paid` — but the failure is not
reported to the caller at all: the response is 200 success with no error
field, identical to the outcome with a delivering notifier, because the
source awaits `resend.emails.send` and never reads the `{ error }` value
it resolves with.  The sibling `/register` handler of the legacy server
checks that value and answers a distinct 500. -/
theorem confirm_payment_ignores_notifier_failure :
    (confirm_payment notifierFailEnv "sess_1" []).response
        = ⟨200, true, false, some "Ana", some "ana@example.com", none⟩
    ∧ (findById "reg-1" (confirm_payment notifierFailEnv "sess_1" []).store).map
        (·.payment_status) = some "paid"
    ∧ (confirm_payment notifierFailEnv "sess_1" []).notifications = 1
    ∧ confirm_payment notifierFailEnv "sess_1" [] = confirm_payment baseEnv "sess_1" [] := by
  decide

/-- C8: a request to `/verify` or `/admin/registrations` whose
credential does not match the server secret fails with the 401
`Unauthorized` response, leaves the store unchanged, and its response is
identical for any two stores — in particular identical whether or not a
record with the given id exists, so no record existence is leaked. -/
theorem unauthorized_uniform_no_access (env : Env) (id pwd : String) (store store2 : Store)
    (h : pwd ≠ env.adminPassword) :
    verify_and_checkin env id pwd store = (VerifyResult.unauthorized, store)
    ∧ list_registrations env pwd store = (ListResult.unauthorized, store)
    ∧ (verify_and_checkin env id pwd store).1 = (verify_and_checkin env id pwd store2).1
    ∧ (list_registrations env pwd store).1 = (list_registrations env pwd store2).1 := by
  simp [verify_and_checkin, list_registrations, h]

/-- Witness for C8 at a wrong credential over a store holding one
record. -/
theorem unauthorized_uniform_no_access_witness :
    verify_and_checkin baseEnv "abc-123" "wrong" [sampleRec]
      = (VerifyResult.unauthorized, [sampleRec]) :=
  (unauthorized_uniform_no_access baseEnv "abc-123" "wrong" [sampleRec] [] (by decide)).1

/-- Helper: the `paid` update of `confirm-payment` preserves the
check-in invariant of every row. -/
theorem storeInv_setPaid (id : String) (store : Store) (hinv : StoreInv store) :
    StoreInv (setPaid id store) := by
  intro r hr
  rw [setPaid, List.mem_map] at hr
  rcases hr with ⟨a, ha, rfl⟩
  have hra := hinv a ha
  unfold RecordInv at *
  by_cases h : a.id = id <;> simp [h] <;> exact hra

/-- Helper: the check-in update writes `checked_in = true` and a
non-null `checked_in_at` together, preserving the invariant. -/
theorem storeInv_verifyWrite (id : String) (now : Nat) (store : Store) (hinv : StoreInv store) :
    StoreInv (verifyWrite id now store) := by
  intro r hr
  rw [verifyWrite, List.mem_map] at hr
  rcases hr with ⟨a, ha, rfl⟩
  have hra := hinv a ha
  unfold RecordInv at *
  by_cases h : a.id = id <;> simp [h] <;> exact hra

/-- Helper: the first-confirmation write preserves the invariant — an
inserted row has `checked_in = false` and `checked_in_at = NULL`. -/
theorem storeInv_confirmWrite (s : StripeSession) (now : Nat) (store : Store)
    (hinv : StoreInv store) :
    StoreInv (confirmWrite s now store) := by
  unfold confirmWrite
  split
  · exact storeInv_setPaid _ _ hinv
  · intro r hr
    rcases List.mem_append.mp hr with h | h
    · exact hinv r h
    · simp at h
      subst h
      simp [RecordInv]

/-- Helper: every `confirm-payment` call leaves the store unchanged or
applies exactly the `confirmWrite` of some session. -/
theorem confirm_payment_store_cases (env : Env) (sid : String) (store : Store) :
    (confirm_payment env sid store).store = store
    ∨ ∃ s, (confirm_payment env sid store).store = confirmWrite s env.now store := by
  unfold confirm_payment
  split
  · exact Or.inl rfl
  · split
    · exact Or.inl rfl
    · split
      · exact Or.inl rfl
      · rename_i session heq hps
        by_cases h : (findById session.registrationId store).map (·.payment_status)
            = some "paid"
        · exact Or.inl (by simp [h])
        · exact Or.inr ⟨session, by simp [h]⟩

/-- Helper: every `/verify` call leaves the store unchanged or applies
exactly the check-in update. -/
theorem verify_store_cases (env : Env) (id pwd : String) (store : Store) :
    (verify_and_checkin env id pwd store).2 = store
    ∨ (verify_and_checkin env id pwd store).2 = verifyWrite id env.now store := by
  unfold verify_and_checkin verifyStep2
  split
  · exact Or.inl rfl
  · split
    · exact Or.inl rfl
    · split
      · exact Or.inl rfl
      · split
        · exact Or.inl rfl
        · exact Or.inr rfl

/-- C9: the invariant that a record has `checked_in = true` exactly when
its `checked_in_at` is non-null is preserved by every operation on the
record store — the two fields are only ever written together, by the
single check-in update. -/
theorem store_invariant_preserved (env : Env) (store : Store) (hinv : StoreInv store) :
    (∀ name email tier, StoreInv (create_checkout env name email tier store).2)
    ∧ (∀ sid, StoreInv (confirm_payment env sid store).store)
    ∧ (∀ id pwd, StoreInv (verify_and_checkin env id pwd store).2)
    ∧ (∀ pwd, StoreInv (list_registrations env pwd store).2) := by
  refine ⟨?_, ?_, ?_, ?_⟩
  · intro name email tier
    rw [create_checkout_store_eq]
    exact hinv
  · intro sid
    rcases confirm_payment_store_cases env sid store with h | ⟨s, h⟩
    · rw [h]; exact hinv
    · rw [h]; exact storeInv_confirmWrite s env.now store hinv
  · intro id pwd
    rcases verify_store_cases env id pwd store with h | h
    · rw [h]; exact hinv
    · rw [h]; exact storeInv_verifyWrite id env.now store hinv
  · intro pwd
    unfold list_registrations
    split <;> exact hinv

/-- Witness for C9: the invariant survives a concrete check-in. -/
theorem store_invariant_preserved_witness :
    StoreInv (verify_and_checkin baseEnv "abc-123" "pw" [sampleRec]).2 :=
  (store_invariant_preserved baseEnv [sampleRec] (by decide)).2.2.1 "abc-123" "pw"

/-- C10: when `/verify` answers status `success`, the registration
object in the response is the row as it was read before the check-in
update — `checked_in = false` and `checked_in_at` null — even though the
store has just been updated to a checked-in row under the same id. -/
theorem verify_success_returns_preread (env : Env) (id pwd : String) (store : Store)
    (r : Registration)
    (hpwd : pwd = env.adminPassword) (hid : id ≠ "")
    (hfind : findById id store = some r) (hci : r.checked_in = false)
    (hinv : StoreInv store) :
    (verify_and_checkin env id pwd store).1 = VerifyResult.success r
    ∧ r.checked_in = false ∧ r.checked_in_at = none
    ∧ findById id (verify_and_checkin env id pwd store).2
        = some { r with checked_in := true, checked_in_at := some env.now } := by
  have hmem : r ∈ store := List.mem_of_find?_eq_some hfind
  have hat : r.checked_in_at = none := by
    have hri := hinv r hmem
    unfold RecordInv at hri
    by_contra hne
    rw [hri.mpr hne] at hci
    cases hci
  have hfirst : verify_and_checkin env id pwd store
      = (VerifyResult.success r, verifyWrite id env.now store) := by
    rw [verify_auth_ok env id pwd store hpwd hid]
    simp [verifyStep2, verifyRead, hfind, hci]
  refine ⟨by rw [hfirst], hci, hat, ?_⟩
  rw [hfirst, findById_verifyWrite, hfind]
  rfl

/-- Witness for C10 at a concrete fresh record. -/
theorem verify_success_returns_preread_witness :
    (verify_and_checkin baseEnv "abc-123" "pw" [sampleRec]).1 = VerifyResult.success sampleRec
    ∧ sampleRec.checked_in_at = none :=
  ⟨(verify_success_returns_preread baseEnv "abc-123" "pw" [sampleRec] sampleRec
      rfl (by decide) (by decide) rfl (by decide)).1,
   (verify_success_returns_preread baseEnv "abc-123" "pw" [sampleRec] sampleRec
      rfl (by decide) (by decide) rfl (by decide)).2.2.1⟩
